import Mathlib

/-!
Verification development for the medical-intake backend (`src/backend/main.py`).

The file shallowly embeds the response-normalization pipeline of the backend:
the answer extractor `extract_answer_from_tags`, the field filter
`prepare_analysis_prompt`, the provider-error mapping of `call_gemini_api` and
`call_hf_inference_api`, the session-initiation cooldown of
`initiate_intake_call`, and the transcript-submission flow of
`submit_transcript`.  Python strings are modelled as Lean `String`
(lower-casing and whitespace handling restricted to ASCII, which covers every
constant appearing in the program), `time.time()` timestamps as `ℚ`, parsed
JSON values as the inductive `Json`, and the HTTP boundary as explicit outcome
parameters.
-/

namespace IntakeBackend

/-! ### Python string primitives used by the backend -/

/-- ASCII case folding, the fragment of Python `str.lower` exercised by the
backend (all fixed phrases and tag names in the program are ASCII). -/
def lowerChar (c : Char) : Char :=
  if 65 ≤ c.toNat ∧ c.toNat ≤ 90 then Char.ofNat (c.toNat + 32) else c

/-- Python `s.lower()` on ASCII data. -/
def pyLower (s : String) : String := String.mk (s.data.map lowerChar)

/-- The ASCII whitespace recognized by Python `str.strip()`. -/
def isPySpace (c : Char) : Bool :=
  c == ' ' || c == '\t' || c == '\n' || c == '\r' || c == '\x0b' || c == '\x0c'

/-- Python `str.strip()` on a character list. -/
def pyStrip (l : List Char) : List Char :=
  ((l.dropWhile isPySpace).reverse.dropWhile isPySpace).reverse

/-- Python `str.strip()`. -/
def pyStripStr (s : String) : String := String.mk (pyStrip s.data)

/-- Python slicing `s[:200]`, used when the backend truncates error text. -/
def take200 (s : String) : String := String.mk (s.data.take 200)

/-- Index of the first occurrence of `needle` as a contiguous sublist of
`hay`, scanning left to right (the search order of Python `re`/`in`). -/
def findSub (needle : List Char) : List Char → Option Nat
  | [] => if needle.isPrefixOf ([] : List Char) then some 0 else none
  | c :: rest =>
    if needle.isPrefixOf (c :: rest) then some 0
    else (findSub needle rest).map (fun i => i + 1)

/-- Python `needle in hay` on strings. -/
def pyIn (needle hay : String) : Bool := (findSub needle.data hay.data).isSome

/-- A single apostrophe, kept out of string literals. -/
def apos : String := String.singleton (Char.ofNat 39)

/-! ### Answer extractor (`extract_answer_from_tags`, main.py lines 459-464)

The source matches `rf'<tag>(.*?)</tag>'` with `re.DOTALL | re.IGNORECASE`
using `re.search`.  For the tag names the program uses (the endpoint only ever
passes `"answer"`, which contains no regex metacharacter) this is: find the
leftmost position where the case-folded text starts with `<tag>` and is
followed, anywhere later, by `</tag>`; the non-greedy group then ends at the
first subsequent `</tag>`.  `searchTagged` implements exactly that search on
case-folded character lists, returning the match position together with the
length of the captured group. -/

/-- The opening delimiter `<tag>`, case-folded. -/
def openTagL (tag : String) : List Char := ('<' :: (tag.data ++ ['>'])).map lowerChar

/-- The closing delimiter `</tag>`, case-folded. -/
def closeTagL (tag : String) : List Char :=
  ('<' :: '/' :: (tag.data ++ ['>'])).map lowerChar

/-- The subject text, case-folded (the effect of `re.IGNORECASE`). -/
def lowerData (s : String) : List Char := s.data.map lowerChar

/-- Leftmost-then-shortest search for `lt …optional gap… ct`: returns
`some (i, d)` when the earliest position `i` at which `lt` is a prefix and
some later `ct` occurs has its nearest following `ct` at distance `d` past
the end of `lt`; `none` when no position qualifies. -/
def searchTagged (lt ct : List Char) : List Char → Option (Nat × Nat)
  | [] =>
    if lt.isPrefixOf ([] : List Char) then
      (findSub ct (([] : List Char).drop lt.length)).map (fun d => (0, d))
    else none
  | c :: rest =>
    if lt.isPrefixOf (c :: rest) then
      match findSub ct ((c :: rest).drop lt.length) with
      | some d => some (0, d)
      | none => (searchTagged lt ct rest).map (fun p => (p.1 + 1, p.2))
    else (searchTagged lt ct rest).map (fun p => (p.1 + 1, p.2))

/-- `extract_answer_from_tags` (main.py lines 459-464): return the stripped
content of the first `<tag>…</tag>` region, case-insensitively with `.`
matching newlines; if the pattern does not occur, return the input text
unchanged (the code logs a warning in that branch, which we do not model). -/
def extract_answer_from_tags (text_with_tags : String) (tag_name : String) : String :=
  match searchTagged (openTagL tag_name) (closeTagL tag_name) (lowerData text_with_tags) with
  | some (i, d) =>
      String.mk (pyStrip ((text_with_tags.data.drop (i + (openTagL tag_name).length)).take d))
  | none => text_with_tags

/-- Declarative counterpart of one candidate position of the regex search:
the opening delimiter is a prefix at `i` and the closing delimiter occurs
somewhere at or after the end of the opening one. -/
def TagMatchAt (lt ct hay : List Char) (i : Nat) : Prop :=
  lt.isPrefixOf (hay.drop i) = true ∧
    ∃ d, ct.isPrefixOf ((hay.drop (i + lt.length)).drop d) = true

instance tagMatchAtDecidable (lt ct hay : List Char) (i : Nat) :
    Decidable (TagMatchAt lt ct hay i) :=
  decidable_of_iff
    ((lt.isPrefixOf (hay.drop i) &&
      (List.range (hay.length + 1)).any
        (fun d => ct.isPrefixOf ((hay.drop (i + lt.length)).drop d))) = true)
    (by
      rw [Bool.and_eq_true, List.any_eq_true]
      constructor
      · rintro ⟨h1, d, _, h2⟩
        exact ⟨h1, d, h2⟩
      · rintro ⟨h1, d, h2⟩
        refine ⟨h1, ?_⟩
        by_cases hd : d ≤ hay.length
        · exact ⟨d, List.mem_range.mpr (Nat.lt_succ_of_le hd), h2⟩
        · refine ⟨hay.length, List.mem_range.mpr (Nat.lt_succ_self _), ?_⟩
          have hlen : ((hay.drop (i + lt.length)).drop d) = [] := by
            apply List.drop_eq_nil_of_le
            calc (hay.drop (i + lt.length)).length ≤ hay.length := by
                  simp [List.length_drop]
              _ ≤ d := le_of_not_le hd
          have hlen2 : ((hay.drop (i + lt.length)).drop hay.length) = [] := by
            apply List.drop_eq_nil_of_le
            simp [List.length_drop]
          rw [hlen2]
          rw [hlen] at h2
          exact h2)

/-! ### Field filter (`prepare_analysis_prompt`, main.py lines 400-457)

The endpoint calls `prepare_analysis_prompt(json.dumps(summary_json_object))`
and the function immediately `json.loads` its argument, so on the summaries of
the data model (seven string-or-null fields) the argument is exactly the
parsed record; we therefore model the function directly on that record.
`data.get(field, "") or ""` maps both a missing/null field and an empty string
to `""`. -/

/-- `StructuredSummary`: the seven string-or-null fields of the summarizer
contract. -/
structure StructuredSummary where
  chiefComplaint : Option String
  historyOfPresentIllness : Option String
  associatedSymptoms : Option String
  pastMedicalHistory : Option String
  medications : Option String
  allergies : Option String
  notesOnInteraction : Option String

/-- The `non_informative_phrases` set (main.py line 414), verbatim. -/
def non_informative_phrases : List String :=
  ["information not gathered", "none reported", "none reported by patient",
   "no known drug allergies reported", "no known drug allergies reported by patient", ""]

/-- Lines 406-428 of main.py: the six sequential append-if-informative steps,
in source order.  Each test is Python `if value and value.lower() not in
non_informative_phrases` — truthiness (non-empty) plus lower-cased set
membership; no whitespace trimming happens before the comparison. -/
def patient_summary_parts (data : StructuredSummary) : List String :=
  let chief_complaint := data.chiefComplaint.getD ""
  let hpi := data.historyOfPresentIllness.getD ""
  let associated_symptoms := data.associatedSymptoms.getD ""
  let past_medical_history := data.pastMedicalHistory.getD ""
  let medications := data.medications.getD ""
  let allergies := data.allergies.getD ""
  let parts : List String := []
  let parts := if chief_complaint ≠ "" ∧ pyLower chief_complaint ∉ non_informative_phrases
    then parts ++ ["Chief Complaint: " ++ chief_complaint] else parts
  let parts := if hpi ≠ "" ∧ pyLower hpi ∉ non_informative_phrases
    then parts ++ ["History of Present Illness: " ++ hpi] else parts
  let parts := if associated_symptoms ≠ "" ∧ pyLower associated_symptoms ∉ non_informative_phrases
    then parts ++ ["Associated Symptoms: " ++ associated_symptoms] else parts
  let parts := if past_medical_history ≠ "" ∧ pyLower past_medical_history ∉ non_informative_phrases
    then parts ++ ["Past Medical History: " ++ past_medical_history] else parts
  let parts := if medications ≠ "" ∧ pyLower medications ∉ non_informative_phrases
    then parts ++ ["Current Medications: " ++ medications] else parts
  let parts := if allergies ≠ "" ∧ pyLower allergies ∉ non_informative_phrases
    then parts ++ ["Allergies: " ++ allergies] else parts
  parts

/-- `"\n".join(patient_summary_parts)` (main.py line 429). -/
def patient_summary_for_analysis (data : StructuredSummary) : String :=
  String.intercalate "\n" (patient_summary_parts data)

/-- The fixed text of the analysis prompt before the condensed block
(main.py lines 435-439). -/
def analysis_prompt_head : String :=
  "You are an advanced medical AI assistant (e.g., a fine-tuned model like II-Medical-8B, or a general large language model) tasked with providing clinical analysis and potential treatment considerations for a healthcare provider.\n\nPATIENT SUMMARY:\n---\n"

/-- The fixed text of the analysis prompt after the condensed block
(main.py lines 440-456). -/
def analysis_prompt_tail : String :=
  "\n---\n\nINSTRUCTIONS FOR YOUR RESPONSE:\n1.  Based ONLY on the PATIENT SUMMARY provided above, generate a concise clinical analysis.\n2.  Include potential differential diagnoses if appropriate, and suggest relevant next steps or treatment considerations.\n3.  Your response is for a healthcare provider; use appropriate medical terminology.\n4.  CRITICAL: Your entire response MUST be enclosed within <answer> and </answer> tags.\n5.  CRITICAL: Do NOT repeat, echo, or paraphrase any part of the \"PATIENT SUMMARY\" input within your <answer></answer> tags. Your answer should begin directly with your clinical analysis.\n6.  Focus SOLELY on the analysis, differential diagnoses, and treatment considerations. Avoid any conversational filler, greetings, or explanations of your process.\n\nExample of desired output format:\n<answer>\n[Your direct clinical analysis, differential diagnoses, and treatment considerations based on the patient summary. No repetition of the input summary.]\n</answer>\n\nBegin your analysis now.\n"

/-- `prepare_analysis_prompt` on a parsed summary (main.py lines 400-457):
`None` exactly when the joined block is whitespace-empty, otherwise the full
analysis prompt with the block spliced in. -/
def prepare_analysis_prompt (data : StructuredSummary) : Option String :=
  if (pyStripStr (patient_summary_for_analysis data)).isEmpty then none
  else some (analysis_prompt_head ++ patient_summary_for_analysis data ++ analysis_prompt_tail)

/-- The six content fields paired with their output labels, in the fixed
order of the source (notesOnInteraction excluded). -/
def summary_field_rows (d : StructuredSummary) : List (String × Option String) :=
  [("Chief Complaint", d.chiefComplaint),
   ("History of Present Illness", d.historyOfPresentIllness),
   ("Associated Symptoms", d.associatedSymptoms),
   ("Past Medical History", d.pastMedicalHistory),
   ("Current Medications", d.medications),
   ("Allergies", d.allergies)]

/-- The example summary of the field-filter test property: a placeholder-like
chief complaint with a trailing period, a substantive HPI, all other fields
null. -/
def filter_example_summary : StructuredSummary :=
  ⟨some "None reported by patient.", some "Sharp right knee pain after a fall.",
   none, none, none, none, none⟩

/-! ### Parsed JSON values and the provider error mapping
(`call_gemini_api` lines 242-259, `call_hf_inference_api` lines 302-319)

`Json` stands for what Python `response.json()` yields.  An HTTP error
response carries its upstream status code, its raw text, and — when the body
parses as JSON — the parsed value (`none` models the `ValueError` branch of
`e.response.json()`). -/

/-- A parsed JSON value as produced by `response.json()`. -/
inductive Json where
  | null
  | bool (b : Bool)
  | num (n : Int)
  | str (s : String)
  | arr (xs : List Json)
  | obj (kvs : List (String × Json))

/-- Python `dict.get` on a parsed JSON object (parsed objects have distinct
keys, so first-match lookup agrees with the dict). -/
def json_lookup (kvs : List (String × Json)) (k : String) : Option Json :=
  (kvs.find? (fun p => p.1 == k)).map (fun p => p.2)

mutual

/-- Python `repr()` of a value produced by `json` parsing: `None`, `True`,
`False`, decimal integers, single-quoted strings, bracketed lists and braced
dicts (elements rendered by `repr` recursively).  String contents are
rendered verbatim, which agrees with `repr` for strings free of quotes,
backslashes and control characters — the only strings the backend's providers
emit in error bodies. -/
def pyReprOfJson : Json → String
  | Json.null => "None"
  | Json.bool true => "True"
  | Json.bool false => "False"
  | Json.num n => toString n
  | Json.str s => apos ++ s ++ apos
  | Json.arr xs => "[" ++ String.intercalate ", " (pyReprOfJsonList xs) ++ "]"
  | Json.obj kvs => "\x7b" ++ String.intercalate ", " (pyReprOfJsonPairs kvs) ++ "\x7d"

/-- `repr` of each element of a parsed JSON list. -/
def pyReprOfJsonList : List Json → List String
  | [] => []
  | x :: t => pyReprOfJson x :: pyReprOfJsonList t

/-- `repr` of each `key: value` entry of a parsed JSON dict. -/
def pyReprOfJsonPairs : List (String × Json) → List String
  | [] => []
  | p :: t => (apos ++ p.1 ++ apos ++ ": " ++ pyReprOfJson p.2) :: pyReprOfJsonPairs t

end

/-- Python `str()` of a value produced by `json` parsing: a string renders as
itself (no quotes), every other value renders as its `repr`. -/
def pyStrOfJson : Json → String
  | Json.str s => s
  | v => pyReprOfJson v

/-- A non-2xx upstream response as seen in the `RequestException` handler:
`e.response.status_code`, `e.response.text`, and the result of
`e.response.json()` (`none` when that raises `ValueError`). -/
structure HttpErrorResponse where
  status : Nat
  text : String
  json : Option Json

/-- The model-not-found test of main.py line 256: `"model" in
detail_msg.lower() and ("not found" in … or "does not exist" in … or
"permission" in …)`. -/
def modelNotFoundTrigger (detail : String) : Bool :=
  pyIn "model" (pyLower detail) &&
    (pyIn "not found" (pyLower detail) || pyIn "does not exist" (pyLower detail) ||
      pyIn "permission" (pyLower detail))

/-- `detail_msg` extraction in the Gemini handler (main.py lines 249-255):
`error_content.get("error", {}).get("message", e.response.text)` when the body
is JSON, else the raw text.  `Except.error ()` marks the shapes on which the
Python expression itself raises `AttributeError` (a non-object JSON body, or
an `"error"` member that is not an object — both lack `.get` — or a
non-string `message`, on which the later `detail_msg.lower()` raises). -/
def gemini_error_detail (body_json : Option Json) (body_text : String) :
    Except Unit String :=
  match body_json with
  | none => Except.ok body_text
  | some (Json.obj kvs) =>
    match json_lookup kvs "error" with
    | none => Except.ok body_text
    | some (Json.obj ekvs) =>
      match json_lookup ekvs "message" with
      | none => Except.ok body_text
      | some (Json.str m) => Except.ok m
      | some _ => Except.error ()
    | some _ => Except.error ()
  | some _ => Except.error ()

/-- Outcome of the Gemini `RequestException` handler: the `HTTPException` it
raises, or an escaped `AttributeError` (which the endpoint later converts to
HTTP 500). -/
inductive GeminiErrorResult where
  | http (status : Nat) (detail : String)
  | attributeError
deriving DecidableEq

/-- The Gemini `RequestException` handler (main.py lines 242-259).  With no
response attached the status is 502 and the detail is the exception text
truncated to 200 characters; with a response the status is the upstream code
and the detail comes from `gemini_error_detail`, except that a detail
mentioning the model together with not-found/does-not-exist/permission is
remapped to a 404 with a fixed message. -/
def gemini_request_error (effective_model_name : String) (e_str : String)
    (resp : Option HttpErrorResponse) : GeminiErrorResult :=
  match resp with
  | none =>
    GeminiErrorResult.http 502
      ("Error communicating with Gemini AI service: " ++ take200 e_str ++ "...")
  | some r =>
    match gemini_error_detail r.json r.text with
    | Except.error _ => GeminiErrorResult.attributeError
    | Except.ok detail =>
      if modelNotFoundTrigger detail then
        GeminiErrorResult.http 404
          ("The AI model " ++ apos ++ effective_model_name ++ apos ++
            " for summarization was not found or is not accessible.")
      else GeminiErrorResult.http r.status detail

/-- `detail_msg` extraction in the HF handler (main.py lines 309-318):
`str(detail_msg_json["error"])` when the body is a JSON object with an
`"error"` member — `str()` applied to whatever value the member holds — else
the raw text truncated to 200 characters with an ellipsis appended. -/
def hf_error_detail (body_json : Option Json) (body_text : String) : String :=
  match body_json with
  | none => take200 body_text ++ "..."
  | some (Json.obj kvs) =>
    match json_lookup kvs "error" with
    | some v => pyStrOfJson v
    | none => take200 body_text ++ "..."
  | some _ => take200 body_text ++ "..."

/-- The HF `RequestException` handler (main.py lines 302-319): status 502 and
truncated exception text with no response, else the upstream status code and
`hf_error_detail`. -/
def hf_request_error (e_str : String) (resp : Option HttpErrorResponse) :
    Nat × String :=
  match resp with
  | none =>
    (502, "Error communicating with HF Inference service: " ++ take200 e_str ++ "...")
  | some r => (r.status, hf_error_detail r.json r.text)

/-! ### Session initiation and the call cooldown
(`initiate_intake_call`, main.py lines 472-522)

`call_cooldown` is a process-wide dict holding at most the key `"last_call"`;
we model it as `Option ℚ` with `time.time()` timestamps as rationals.  The
handler first clears the dict whenever `current_time % 100 == 0` (the
"periodic cleanup" of lines 480-482), then rejects with 429 when
`current_time - call_cooldown.get("last_call", 0) < 5`, then checks the API
key, then performs the upstream POST; only a 2xx JSON response containing a
`joinUrl` writes the new timestamp.  A missing `joinUrl` raises
`HTTPException(502)` inside the `try`, which the trailing
`except Exception` rewraps as HTTP 500. -/

/-- Python `current_time % 100 == 0` on an exact (rational) timestamp: the
time is an integer multiple of 100. -/
def isMultipleOf100 (t : ℚ) : Bool := t.den == 1 && t.num % 100 == 0

/-- What the upstream POST to the call-session provider produced:
a `RequestException` (transport failure, timeout, or non-2xx via
`raise_for_status`), a 2xx body that is not JSON (`ValueError` from
`response.json()`, caught only by the generic `except Exception`), or a
parsed 2xx body with its optional `joinUrl` and `callId`. -/
inductive CallSessionOutcome where
  | requestError (msg : String)
  | okNotJson
  | ok (joinUrl : Option String) (callId : Option String)
deriving DecidableEq

/-- One session-initiation attempt: its `time.time()` value, whether
`ULTRAVOX_API_KEY_VALUE` is set, and the upstream outcome (consulted only if
the request is actually sent). -/
structure InitiateInput where
  time : ℚ
  keyConfigured : Bool
  upstream : CallSessionOutcome
deriving DecidableEq

/-- The externally visible result of one attempt. -/
inductive InitiateResult where
  | tooManyRequests
  | serviceUnavailable
  | upstreamError (msg : String)
  | internalError
  | success (joinUrl : String) (callId : Option String)
deriving DecidableEq

/-- Discriminator for the success constructor. -/
def InitiateResult.isSuccess : InitiateResult → Bool
  | InitiateResult.success _ _ => true
  | _ => false

/-- One run of `initiate_intake_call` (main.py lines 472-522) from cooldown
state `st`: result, new cooldown state, and whether the upstream provider was
contacted.  The 429 message, 503 message and 500 wrapping are collapsed into
the result constructors. -/
def initiate_step (st : Option ℚ) (inp : InitiateInput) :
    InitiateResult × Option ℚ × Bool :=
  let st := if isMultipleOf100 inp.time then none else st
  let last_call_time := st.getD 0
  if inp.time - last_call_time < 5 then (InitiateResult.tooManyRequests, st, false)
  else if !inp.keyConfigured then (InitiateResult.serviceUnavailable, st, false)
  else
    match inp.upstream with
    | CallSessionOutcome.requestError m => (InitiateResult.upstreamError m, st, true)
    | CallSessionOutcome.okNotJson => (InitiateResult.internalError, st, true)
    | CallSessionOutcome.ok none _ => (InitiateResult.internalError, st, true)
    | CallSessionOutcome.ok (some j) c =>
        (InitiateResult.success j c, some inp.time, true)

/-! ### Transcript submission (`submit_transcript`, main.py lines 524-586)

After the summarizer call returns, line 550 runs

  `re.sub(r'…fence pattern…', ai2_response_str.strip(), flags=…)`

This call passes only `pattern` and `repl` positionally and `flags` by
keyword, omitting the mandatory third argument `string` of
`re.sub(pattern, repl, string, count=0, flags=0)`; Python therefore raises
`TypeError` before any pattern matching, on every input.  `TypeError` is not
`json.JSONDecodeError`, so the inner `except` at line 553 does not catch it,
and it is not an `HTTPException`, so the endpoint handler at line 584 maps it
to HTTP 500 ("Internal server error: …").  The parse tiers at lines 551-564
and the filter/analysis stages at lines 566-582 are consequently dead code
for every request that reaches line 550. -/

/-- The exception raised by the cleaning statement at line 550. -/
inductive PyExn where
  | typeError
deriving DecidableEq

/-- Line 550 of main.py, modelled as the exception it raises: the `re.sub`
call is missing its `string` argument, so it raises `TypeError`
unconditionally (the argument is ignored exactly as Python never reads it). -/
def clean_ai2_response_exn (_ai2_response_str : String) : PyExn :=
  PyExn.typeError

/-- What `call_gemini_api` produced for the summarization call: a raised
`HTTPException` (propagated unchanged by `except HTTPException: raise`) or
the returned text. -/
inductive GeminiCallOutcome where
  | failure (status : Nat) (detail : String)
  | success (raw : String)

/-- The externally visible result of `submit_transcript`. -/
inductive SubmitResult where
  | httpError (status : Nat) (detail : String)
  | skippedAnalysis (summary : Json)
  | processed (summary : Json) (analysis : String)
  | internalError

/-- `submit_transcript` (main.py lines 524-586) as a function of the request
fields, the configuration flags, and the summarizer outcome.  The guards of
lines 530-532 run first; a summarizer `HTTPException` propagates; on
summarizer success the cleaning statement at line 550 raises `TypeError`,
which the endpoint converts to HTTP 500 (`SubmitResult.internalError`) — no
input reaches the JSON parse tiers, the field filter, or the analysis call. -/
def submit_transcript_model (transcript : Option String)
    (geminiConfigured hfConfigured : Bool)
    (geminiCall : GeminiCallOutcome) : SubmitResult :=
  if (transcript.getD "").isEmpty then
    SubmitResult.httpError 400 "Missing transcript data."
  else if !geminiConfigured then
    SubmitResult.httpError 503 "AI#2 service unavailable (key missing at call time)."
  else if !hfConfigured then
    SubmitResult.httpError 503 "AI#3 service unavailable (config missing at call time)."
  else
    match geminiCall with
    | GeminiCallOutcome.failure st d => SubmitResult.httpError st d
    | GeminiCallOutcome.success ai2_response_str =>
      match clean_ai2_response_exn ai2_response_str with
      | PyExn.typeError => SubmitResult.internalError

/-- A raw summarizer output that is a valid JSON object text with all seven
`StructuredSummary` fields (the shape the summarization prompt demands). -/
def valid_seven_field_json : String :=
  "\x7b\"chiefComplaint\": \"Right knee pain\", \"historyOfPresentIllness\": \"Two day history of sharp right knee pain after a fall.\", \"associatedSymptoms\": null, \"pastMedicalHistory\": null, \"medications\": null, \"allergies\": null, \"notesOnInteraction\": null\x7d"

/-- The fence-wrapped summarizer output of the tier-1 test property. -/
def fenced_json_output : String :=
  "```json\n\x7b\"chiefComplaint\":\"knee pain\"\x7d\n```"

/-- The embedded-object summarizer output of the tier-2 test property. -/
def embedded_json_output : String :=
  "some preamble text \x7b\"chiefComplaint\":\"x\"\x7d trailing"

/-- A summarizer output in which every content field is a non-informative
placeholder, the all-placeholder end-to-end test case. -/
def all_placeholder_json : String :=
  "\x7b\"chiefComplaint\": \"Information not gathered\", \"historyOfPresentIllness\": \"Information not gathered\", \"associatedSymptoms\": \"None reported\", \"pastMedicalHistory\": \"None reported\", \"medications\": \"None reported\", \"allergies\": \"No known drug allergies reported\", \"notesOnInteraction\": null\x7d"

/-- The all-placeholder parsed summary corresponding to
`all_placeholder_json`. -/
def all_placeholder_summary : StructuredSummary :=
  ⟨some "Information not gathered", some "Information not gathered",
   some "None reported", some "None reported", some "None reported",
   some "No known drug allergies reported", none⟩

/-- A 210-character upstream response body that is not JSON, longer than the
200-character truncation limit the specification describes. -/
def long_body : String := String.mk (List.replicate 210 'a')

end IntakeBackend

namespace IntakeBackend

/-! ## Theorems -/

/-! ### Transcript submission (claims about the normalization tiers)

Every theorem in this group evaluates `submit_transcript_model` at a concrete
summarizer output: because the cleaning statement at main.py line 550 calls
`re.sub` without its mandatory `string` argument, the endpoint answers
HTTP 500 for every summarizer success, so none of the documented parse tiers
can ever run. -/

/-- C1: the claim states that a valid seven-field JSON summarizer output is
parsed successfully into a `StructuredSummary`.  On the code, the cleaning
statement at line 550 raises `TypeError` before any parsing, and the endpoint
returns HTTP 500 instead of a summary. -/
theorem submit_valid_json_http500 :
    submit_transcript_model (some "Patient reports right knee pain.") true true
      (GeminiCallOutcome.success valid_seven_field_json) = SubmitResult.internalError := rfl

/-- C2: the claim states that a code-fence-wrapped JSON output succeeds via
the tier-1 fence-stripping fallback.  On the code, line 550 raises
`TypeError` before the fence pattern is ever applied, and the endpoint
returns HTTP 500. -/
theorem submit_fenced_output_http500 :
    submit_transcript_model (some "Patient reports right knee pain.") true true
      (GeminiCallOutcome.success fenced_json_output) = SubmitResult.internalError := rfl

/-- C3: the claim states that an output with an embedded JSON object succeeds
via the tier-2 greedy brace extraction.  On the code, line 550 raises
`TypeError` before the brace regex at line 555 can run, and the endpoint
returns HTTP 500. -/
theorem submit_embedded_json_http500 :
    submit_transcript_model (some "Patient reports right knee pain.") true true
      (GeminiCallOutcome.success embedded_json_output) = SubmitResult.internalError := rfl

/-- C4: the claim states that non-JSON output exhausts all three tiers and is
rejected with `InvalidSummaryFormat` as a 502.  On the code, line 550 raises
`TypeError` before any tier runs, and the endpoint returns HTTP 500 with an
internal-server-error detail, not the 502 invalid-format error. -/
theorem submit_not_json_http500 :
    submit_transcript_model (some "Patient reports right knee pain.") true true
      (GeminiCallOutcome.success "not json at all") = SubmitResult.internalError := rfl

/-- C6: the claim states that an all-placeholder summary leads to a success
response with a null analysis and a skipped message.  The second conjunct
confirms that the field filter would indeed produce an empty block for the
all-placeholder summary, but the first shows the code never reaches it: the
`TypeError` of line 550 turns the request into HTTP 500. -/
theorem submit_all_placeholder_http500 :
    submit_transcript_model (some "Patient reports nothing.") true true
      (GeminiCallOutcome.success all_placeholder_json) = SubmitResult.internalError
    ∧ prepare_analysis_prompt all_placeholder_summary = none := by
  exact ⟨rfl, by decide⟩

/-! ### Field filter (C5) -/

/-- C5 (counterexample): the claim states the filter trims and lower-cases
before the placeholder comparison, so that the example summary with
`chiefComplaint = "None reported by patient."` yields exactly one line.  The
code lower-cases but never trims, and the trailing period keeps the phrase
out of the placeholder set, so the block has two lines. -/
theorem filter_example_two_lines :
    patient_summary_parts filter_example_summary =
      ["Chief Complaint: None reported by patient.",
       "History of Present Illness: Sharp right knee pain after a fall."]
    ∧ (patient_summary_parts filter_example_summary).length ≠ 1 := by decide

/-- C5 (amended): the filter lower-cases each of the six content fields
without trimming, and emits the line `"<Label>: <original value>"` exactly
when the field is non-null, non-empty, and its lower-cased value is not in
the placeholder set, in the fixed label order. -/
theorem patient_summary_parts_characterization (d : StructuredSummary) :
    patient_summary_parts d =
      (summary_field_rows d).filterMap (fun r =>
        if r.2.getD "" ≠ "" ∧ pyLower (r.2.getD "") ∉ non_informative_phrases
          then some (r.1 ++ ": " ++ r.2.getD "") else none) := by
  by_cases h1 : d.chiefComplaint.getD "" ≠ "" ∧
      pyLower (d.chiefComplaint.getD "") ∉ non_informative_phrases <;>
  by_cases h2 : d.historyOfPresentIllness.getD "" ≠ "" ∧
      pyLower (d.historyOfPresentIllness.getD "") ∉ non_informative_phrases <;>
  by_cases h3 : d.associatedSymptoms.getD "" ≠ "" ∧
      pyLower (d.associatedSymptoms.getD "") ∉ non_informative_phrases <;>
  by_cases h4 : d.pastMedicalHistory.getD "" ≠ "" ∧
      pyLower (d.pastMedicalHistory.getD "") ∉ non_informative_phrases <;>
  by_cases h5 : d.medications.getD "" ≠ "" ∧
      pyLower (d.medications.getD "") ∉ non_informative_phrases <;>
  by_cases h6 : d.allergies.getD "" ≠ "" ∧
      pyLower (d.allergies.getD "") ∉ non_informative_phrases <;>
  simp [patient_summary_parts, summary_field_rows, h1, h2, h3, h4, h5, h6]

/-! ### Session cooldown (C7, C10) -/

/-- An attempt is rejected with 429 exactly when the attempt time is within
5 seconds of the cooldown timestamp that survives the periodic clear. -/
theorem initiate_step_rejected_iff (st : Option ℚ) (inp : InitiateInput) :
    (initiate_step st inp).1 = InitiateResult.tooManyRequests ↔
      inp.time - ((if isMultipleOf100 inp.time then (none : Option ℚ) else st).getD 0) < 5 := by
  obtain ⟨t, k, up⟩ := inp
  rcases up with m | _ | ⟨(_ | j), c⟩ <;>
    (simp only [initiate_step]; split_ifs with h1 h2 <;> simp_all)

/-- Any attempt that does not succeed leaves the cooldown state at its
post-clear value: the previous state, or `none` when the attempt time is an
exact multiple of 100 seconds. -/
theorem initiate_step_state_of_not_success (st : Option ℚ) (inp : InitiateInput)
    (h : (initiate_step st inp).1.isSuccess = false) :
    (initiate_step st inp).2.1 = if isMultipleOf100 inp.time then none else st := by
  obtain ⟨t, k, up⟩ := inp
  rcases up with m | _ | ⟨(_ | j), c⟩ <;>
    (simp only [initiate_step] at h ⊢;
     split_ifs at h ⊢ with h1 h2 <;> simp_all [InitiateResult.isSuccess])

/-- C7 (counterexample): a successful initiation at time 99 followed by an
attempt at time 100 — only one second later — is not rejected, because the
periodic cleanup fires at any time that is an exact multiple of 100 and
erases the cooldown timestamp before the check. -/
theorem cooldown_claim_counterexample :
    initiate_step none ⟨99, true, CallSessionOutcome.ok (some "https://join.example") (some "call-1")⟩
      = (InitiateResult.success "https://join.example" (some "call-1"), some 99, true)
    ∧ initiate_step (some 99)
        ⟨100, true, CallSessionOutcome.ok (some "https://join.example") (some "call-2")⟩
      = (InitiateResult.success "https://join.example" (some "call-2"), some 100, true)
    ∧ (100 : ℚ) - 99 < 5 := by
  refine ⟨?_, ?_, by norm_num⟩
  · have hm : isMultipleOf100 99 = false := by decide
    simp only [initiate_step, hm]
    norm_num
  · have hm : isMultipleOf100 100 = true := by decide
    simp only [initiate_step, hm]
    norm_num

/-- C7 (amended): after a success at time `t ≥ 0`, an attempt less than
5 seconds later whose timestamp is not an exact multiple of 100 seconds is
rejected with 429 without contacting the provider; an attempt 5 or more
seconds later with the key configured and a joinUrl-bearing upstream response
succeeds; and every successful attempt writes its own time into the cooldown
state. -/
theorem cooldown_amended (t u : ℚ) (ht : 0 ≤ t) :
    (∀ k up, u - t < 5 → isMultipleOf100 u = false →
      initiate_step (some t) ⟨u, k, up⟩ = (InitiateResult.tooManyRequests, some t, false))
  ∧ (∀ j c, 5 ≤ u - t →
      initiate_step (some t) ⟨u, true, CallSessionOutcome.ok (some j) c⟩ =
        (InitiateResult.success j c, some u, true))
  ∧ (∀ st inp, (initiate_step st inp).1.isSuccess = true →
      (initiate_step st inp).2.1 = some inp.time) := by
  refine ⟨?_, ?_, ?_⟩
  · intro k up hlt hmul
    simp only [initiate_step, hmul]
    simp [hlt]
  · intro j c hge
    by_cases hmul : isMultipleOf100 u = true
    · simp [initiate_step, hmul]
      linarith
    · simp only [Bool.not_eq_true] at hmul
      simp [initiate_step, hmul]
      linarith
  · intro st inp h
    obtain ⟨tt, k, up⟩ := inp
    rcases up with m | _ | ⟨(_ | j), c⟩ <;>
      (simp only [initiate_step] at h ⊢;
       split_ifs at h ⊢ with h1 h2 <;> simp_all [InitiateResult.isSuccess])

/-- Witness for `cooldown_amended` at `t = 0`: an attempt at time 1 is
rejected with 429 and leaves the state alone, an attempt at time 6 succeeds
and writes its own time. -/
theorem cooldown_amended_witness :
    initiate_step (some (0 : ℚ))
        ⟨1, true, CallSessionOutcome.ok (some "https://join.example") none⟩
      = (InitiateResult.tooManyRequests, some 0, false)
  ∧ initiate_step (some (0 : ℚ))
        ⟨6, true, CallSessionOutcome.ok (some "https://join.example") none⟩
      = (InitiateResult.success "https://join.example" none, some 6, true) := by
  constructor
  · exact (cooldown_amended 0 1 le_rfl).1 true _ (by norm_num) (by decide)
  · exact (cooldown_amended 0 6 le_rfl).2.1 "https://join.example" none (by norm_num)

/-- C10 (counterexample): the claim states a failed attempt leaves the
cooldown state unchanged.  A failed attempt at time 100 (here: the API key is
not configured, so the provider is never contacted) clears a previously
recorded timestamp, because the periodic cleanup at lines 480-482 fires at
exact multiples of 100 and erases the whole dict. -/
theorem failed_attempt_state_counterexample :
    initiate_step (some 99) ⟨100, false, CallSessionOutcome.requestError "connection reset"⟩
      = (InitiateResult.serviceUnavailable, none, false)
    ∧ (some (99 : ℚ)) ≠ (none : Option ℚ) := by
  constructor
  · simp +decide [initiate_step]
  · simp

/-- C10 (amended): a failed session-initiation attempt never writes the
cooldown timestamp — the state after it is the previous state, or `none` when
the attempt time is an exact multiple of 100 seconds (the periodic cleanup);
consequently, when the previous state held a non-negative timestamp, any
later attempt that is rejected with 429 after the failed attempt would also
have been rejected without it. -/
theorem failed_attempt_state_amended (st : Option ℚ) (inp : InitiateInput)
    (hfail : (initiate_step st inp).1.isSuccess = false) :
    ((initiate_step st inp).2.1 = st ∧ isMultipleOf100 inp.time = false
      ∨ (initiate_step st inp).2.1 = none ∧ isMultipleOf100 inp.time = true)
  ∧ (∀ t0, st = some t0 → 0 ≤ t0 → ∀ inp2 : InitiateInput,
      (initiate_step ((initiate_step st inp).2.1) inp2).1 = InitiateResult.tooManyRequests →
      (initiate_step st inp2).1 = InitiateResult.tooManyRequests) := by
  have hstate := initiate_step_state_of_not_success st inp hfail
  constructor
  · by_cases hm : isMultipleOf100 inp.time = true
    · exact Or.inr ⟨by rw [hstate, if_pos hm], hm⟩
    · have hmf : isMultipleOf100 inp.time = false := by
        revert hm; cases isMultipleOf100 inp.time <;> simp
      exact Or.inl ⟨by rw [hstate, if_neg (by simp [hmf])], hmf⟩
  · intro t0 hst ht0 inp2 hrej
    rw [hstate] at hrej
    by_cases hm : isMultipleOf100 inp.time = true
    · rw [if_pos hm] at hrej
      rw [initiate_step_rejected_iff] at hrej ⊢
      rw [hst]
      by_cases hm2 : isMultipleOf100 inp2.time = true
      · rw [if_pos hm2] at hrej ⊢
        exact hrej
      · have hm2f : isMultipleOf100 inp2.time = false := by
          revert hm2; cases isMultipleOf100 inp2.time <;> simp
        rw [if_neg (by simp [hm2f])] at hrej ⊢
        simp only [Option.getD_none, sub_zero] at hrej
        simp only [Option.getD_some]
        linarith
    · rw [if_neg hm] at hrej
      exact hrej

/-- Witness for `failed_attempt_state_amended`: the failed attempt at time
100 clears the state (the cleanup case of the disjunction), and the rejection
of a later attempt at time 3 from the cleared state also happens from the
original state. -/
theorem failed_attempt_state_amended_witness :
    ((initiate_step (some (0 : ℚ)) ⟨100, false, CallSessionOutcome.requestError "boom"⟩).2.1 = none
      ∧ isMultipleOf100 (100 : ℚ) = true)
  ∧ (initiate_step (some (0 : ℚ))
        ⟨3, true, CallSessionOutcome.ok (some "https://join.example") none⟩).1
      = InitiateResult.tooManyRequests := by
  have h := failed_attempt_state_amended (some 0)
    ⟨100, false, CallSessionOutcome.requestError "boom"⟩
    (by simp +decide [initiate_step, InitiateResult.isSuccess])
  constructor
  · rcases h.1 with ⟨h1, h2⟩ | ⟨h1, h2⟩
    · exact absurd h2 (by decide)
    · exact ⟨h1, h2⟩
  · exact h.2 0 rfl le_rfl ⟨3, true, CallSessionOutcome.ok (some "https://join.example") none⟩
      (by simp +decide [initiate_step])

/-! ### Provider error mapping (C9) -/

set_option maxRecDepth 8000 in
/-- C9 (counterexample): the claim states that when no JSON error body is
present the message is the raw response text truncated to 200 characters.
For the summarizer (Gemini) client, a non-JSON 500 body of 210 characters is
passed through untruncated. -/
theorem gemini_error_not_truncated :
    gemini_request_error "gemini-2.5-flash-preview-05-20" "boom"
        (some ⟨500, long_body, none⟩)
      = GeminiErrorResult.http 500 long_body
    ∧ long_body.length = 210 := by
  constructor
  · have ht : modelNotFoundTrigger long_body = false := by decide
    simp [gemini_request_error, gemini_error_detail, ht]
  · rfl

/-- C9 (amended): for a non-2xx response, both clients carry the upstream
status code; the analysis (HF) client takes `str()` of the JSON body's
`error` member — whatever value it holds — when the body is a JSON object
containing one, and otherwise the raw text truncated to 200 characters with
an appended ellipsis (at most 203 characters in total); the summarizer
(Gemini) client takes the JSON body's `error.message` when present and
otherwise the raw text without any truncation, and remaps to a 404 with a
fixed message whenever the extracted detail mentions the model together with
not-found, does-not-exist or permission wording. -/
theorem provider_error_mapping_amended
    (status : Nat) (body_text e_str model_name m : String) (v : Json)
    (kvs : List (String × Json)) :
    (json_lookup kvs "error" = some v →
      hf_request_error e_str (some ⟨status, body_text, some (Json.obj kvs)⟩)
        = (status, pyStrOfJson v))
  ∧ (hf_request_error e_str (some ⟨status, body_text, none⟩)
      = (status, take200 body_text ++ "..."))
  ∧ ((hf_request_error e_str (some ⟨status, body_text, none⟩)).2.length ≤ 203)
  ∧ (modelNotFoundTrigger body_text = false →
      gemini_request_error model_name e_str (some ⟨status, body_text, none⟩)
        = GeminiErrorResult.http status body_text)
  ∧ (modelNotFoundTrigger m = false →
      gemini_request_error model_name e_str
          (some ⟨status, body_text,
            some (Json.obj [("error", Json.obj [("message", Json.str m)])])⟩)
        = GeminiErrorResult.http status m)
  ∧ (modelNotFoundTrigger m = true →
      gemini_request_error model_name e_str
          (some ⟨status, body_text,
            some (Json.obj [("error", Json.obj [("message", Json.str m)])])⟩)
        = GeminiErrorResult.http 404
            ("The AI model " ++ apos ++ model_name ++ apos ++
              " for summarization was not found or is not accessible.")) := by
  refine ⟨?_, ?_, ?_, ?_, ?_, ?_⟩
  · intro hv
    simp [hf_request_error, hf_error_detail, hv]
  · simp [hf_request_error, hf_error_detail]
  · simp only [hf_request_error, hf_error_detail, String.length_append]
    have hb : (take200 body_text).length ≤ 200 := by
      simp only [take200, String.length, List.length_take]
      omega
    have he : ("..." : String).length = 3 := rfl
    omega
  · intro ht
    simp [gemini_request_error, gemini_error_detail, ht]
  · intro ht
    simp [gemini_request_error, gemini_error_detail, json_lookup, ht]
  · intro ht
    simp [gemini_request_error, gemini_error_detail, json_lookup, ht]

/-- Witness for `provider_error_mapping_amended`: a string-valued HF error
body (`str` of a string is the string itself), a non-string HF error body
(`str(42)` is `"42"`), an untruncated Gemini raw-text detail, and a 404 remap
on a model-not-found message. -/
theorem provider_error_mapping_amended_witness :
    hf_request_error "exc"
        (some ⟨502, "bad gateway body", some (Json.obj [("error", Json.str "quota exceeded")])⟩)
      = (502, "quota exceeded")
  ∧ hf_request_error "exc"
        (some ⟨502, "bad gateway body", some (Json.obj [("error", Json.num 42)])⟩)
      = (502, "42")
  ∧ gemini_request_error "gemini-test" "exc" (some ⟨502, "bad gateway body", none⟩)
      = GeminiErrorResult.http 502 "bad gateway body"
  ∧ gemini_request_error "gemini-test" "exc"
        (some ⟨403, "t", some (Json.obj [("error", Json.obj [("message", Json.str "model not found")])])⟩)
      = GeminiErrorResult.http 404
          ("The AI model " ++ apos ++ "gemini-test" ++ apos ++
            " for summarization was not found or is not accessible.") := by
  refine ⟨?_, ?_, ?_, ?_⟩
  · exact (provider_error_mapping_amended 502 "bad gateway body" "exc" "gemini-test"
      "quota exceeded" (Json.str "quota exceeded") [("error", Json.str "quota exceeded")]).1 rfl
  · exact (provider_error_mapping_amended 502 "bad gateway body" "exc" "gemini-test"
      "quota exceeded" (Json.num 42) [("error", Json.num 42)]).1 rfl
  · exact (provider_error_mapping_amended 502 "bad gateway body" "exc" "gemini-test"
      "quota exceeded" Json.null []).2.2.2.1 (by decide)
  · exact (provider_error_mapping_amended 403 "t" "exc" "gemini-test"
      "model not found" Json.null []).2.2.2.2.2 (by decide)

/-! ### Answer extractor (C8)

Correctness of the leftmost-then-shortest search `searchTagged` against the
declarative `TagMatchAt`, and the characterization of
`extract_answer_from_tags` demanded by the specification. -/

/-- A prefix of the empty list is empty. -/
theorem isPrefixOf_nil_eq (n : List Char) (h : n.isPrefixOf ([] : List Char) = true) :
    n = [] := by
  rw [List.isPrefixOf_iff_prefix] at h
  exact List.prefix_nil.mp h

/-- The opening delimiter is never empty. -/
theorem openTagL_ne_nil (tag : String) : openTagL tag ≠ [] := by
  simp [openTagL]

/-- If `findSub` finds nothing, the needle is a prefix of no suffix. -/
theorem findSub_eq_none (n : List Char) :
    ∀ (l : List Char), findSub n l = none → ∀ i, ¬ n.isPrefixOf (l.drop i) = true := by
  intro l
  induction l with
  | nil =>
    intro hn i
    simp only [findSub] at hn
    split at hn
    · exact absurd hn (by simp)
    · next hc =>
      rw [List.drop_nil]
      exact hc
  | cons c rest ih =>
    intro hn i
    simp only [findSub] at hn
    split at hn
    · exact absurd hn (by simp)
    · next hc =>
      have hrest : findSub n rest = none := by
        cases hfr : findSub n rest with
        | none => rfl
        | some k => rw [hfr] at hn; simp at hn
      cases i with
      | zero =>
        rw [List.drop_zero]
        exact hc
      | succ j =>
        rw [List.drop_succ_cons]
        exact ih hrest j

/-- If `findSub` returns `some i`, the needle is a prefix at `i` and at no
earlier position. -/
theorem findSub_eq_some (n : List Char) :
    ∀ (l : List Char) (i : Nat), findSub n l = some i →
      n.isPrefixOf (l.drop i) = true ∧ ∀ j, j < i → ¬ n.isPrefixOf (l.drop j) = true := by
  intro l
  induction l with
  | nil =>
    intro i hf
    simp only [findSub] at hf
    split at hf
    · next hc =>
      obtain rfl : (0 : Nat) = i := by simpa using hf
      refine ⟨by simpa using hc, ?_⟩
      intro j hj
      exact absurd hj (Nat.not_lt_zero j)
    · exact absurd hf (by simp)
  | cons c rest ih =>
    intro i hf
    simp only [findSub] at hf
    split at hf
    · next hc =>
      obtain rfl : (0 : Nat) = i := by simpa using hf
      refine ⟨by simpa using hc, ?_⟩
      intro j hj
      exact absurd hj (Nat.not_lt_zero j)
    · next hc =>
      cases hfr : findSub n rest with
      | none => rw [hfr] at hf; exact absurd hf (by simp)
      | some i0 =>
        rw [hfr] at hf
        obtain rfl : i0 + 1 = i := by simpa using hf
        obtain ⟨hp, hmin⟩ := ih i0 hfr
        constructor
        · rw [List.drop_succ_cons]
          exact hp
        · intro j hj
          cases j with
          | zero =>
            rw [List.drop_zero]
            exact hc
          | succ j0 =>
            rw [List.drop_succ_cons]
            exact hmin j0 (by omega)

/-- Shifting a candidate position across a cons cell. -/
theorem tagMatchAt_cons_succ (lt ct : List Char) (c : Char) (rest : List Char) (i : Nat) :
    TagMatchAt lt ct (c :: rest) (i + 1) ↔ TagMatchAt lt ct rest i := by
  unfold TagMatchAt
  rw [List.drop_succ_cons]
  have h : i + 1 + lt.length = (i + lt.length) + 1 := by omega
  rw [h, List.drop_succ_cons]

/-- If `searchTagged` finds nothing, no position carries a tagged match. -/
theorem searchTagged_eq_none (lt ct : List Char) :
    ∀ (hay : List Char), searchTagged lt ct hay = none →
      ∀ i, ¬ TagMatchAt lt ct hay i := by
  intro hay
  induction hay with
  | nil =>
    intro hs i hTM
    simp only [TagMatchAt] at hTM
    obtain ⟨hp, d, hd⟩ := hTM
    simp only [searchTagged] at hs
    split at hs
    · next hc =>
      have hfr : findSub ct (([] : List Char).drop lt.length) = none := by
        cases h2 : findSub ct (([] : List Char).drop lt.length) with
        | none => rfl
        | some k => rw [h2] at hs; simp at hs
      exact findSub_eq_none ct _ hfr d (by simpa using hd)
    · next hc =>
      rw [List.drop_nil] at hp
      exact hc hp
  | cons c rest ih =>
    intro hs i
    simp only [searchTagged] at hs
    split at hs
    · next hc =>
      cases hfr : findSub ct ((c :: rest).drop lt.length) with
      | some d0 => rw [hfr] at hs; exact absurd hs (by simp)
      | none =>
        rw [hfr] at hs
        have hrest : searchTagged lt ct rest = none := by
          cases h2 : searchTagged lt ct rest with
          | none => rfl
          | some p => rw [h2] at hs; simp at hs
        cases i with
        | zero =>
          intro hTM
          simp only [TagMatchAt] at hTM
          obtain ⟨hp, d, hd⟩ := hTM
          exact findSub_eq_none ct _ hfr d (by simpa using hd)
        | succ j =>
          rw [tagMatchAt_cons_succ]
          exact ih hrest j
    · next hc =>
      have hrest : searchTagged lt ct rest = none := by
        cases h2 : searchTagged lt ct rest with
        | none => rfl
        | some p => rw [h2] at hs; simp at hs
      cases i with
      | zero =>
        intro hTM
        simp only [TagMatchAt] at hTM
        obtain ⟨hp, d, hd⟩ := hTM
        rw [List.drop_zero] at hp
        exact hc hp
      | succ j =>
        rw [tagMatchAt_cons_succ]
        exact ih hrest j

/-- If `searchTagged` returns `some (i, d)`, then `i` is the least position
with a tagged match and `d` the least offset of the closing delimiter after
the opening one. -/
theorem searchTagged_eq_some (lt ct : List Char) :
    ∀ (hay : List Char) (i d : Nat), searchTagged lt ct hay = some (i, d) →
      TagMatchAt lt ct hay i
      ∧ (∀ j, j < i → ¬ TagMatchAt lt ct hay j)
      ∧ ct.isPrefixOf ((hay.drop (i + lt.length)).drop d) = true
      ∧ ∀ e, e < d → ¬ ct.isPrefixOf ((hay.drop (i + lt.length)).drop e) = true := by
  intro hay
  induction hay with
  | nil =>
    intro i d hs
    simp only [searchTagged] at hs
    split at hs
    · next hc =>
      cases hfr : findSub ct (([] : List Char).drop lt.length) with
      | none => rw [hfr] at hs; exact absurd hs (by simp)
      | some d0 =>
        rw [hfr] at hs
        simp only [Option.map_some', Option.some.injEq, Prod.mk.injEq] at hs
        obtain ⟨h1, h2⟩ := hs
        subst h1
        subst h2
        obtain ⟨hp, hmin⟩ := findSub_eq_some ct _ d0 hfr
        refine ⟨?_, ?_, ?_, ?_⟩
        · simp only [TagMatchAt]
          exact ⟨by simpa using hc, d0, by simpa using hp⟩
        · intro j hj
          exact absurd hj (Nat.not_lt_zero j)
        · simpa using hp
        · intro e he hcon
          exact hmin e he (by simpa using hcon)
    · exact absurd hs (by simp)
  | cons c rest ih =>
    intro i d hs
    simp only [searchTagged] at hs
    split at hs
    · next hc =>
      cases hfr : findSub ct ((c :: rest).drop lt.length) with
      | some d0 =>
        rw [hfr] at hs
        simp only [Option.some.injEq, Prod.mk.injEq] at hs
        obtain ⟨h1, h2⟩ := hs
        subst h1
        subst h2
        obtain ⟨hp, hmin⟩ := findSub_eq_some ct _ d0 hfr
        refine ⟨?_, ?_, ?_, ?_⟩
        · simp only [TagMatchAt]
          exact ⟨by simpa using hc, d0, by simpa using hp⟩
        · intro j hj
          exact absurd hj (Nat.not_lt_zero j)
        · simpa using hp
        · intro e he hcon
          exact hmin e he (by simpa using hcon)
      | none =>
        rw [hfr] at hs
        cases h2 : searchTagged lt ct rest with
        | none => rw [h2] at hs; exact absurd hs (by simp)
        | some p =>
          obtain ⟨i0, d0⟩ := p
          rw [h2] at hs
          simp only [Option.map_some', Option.some.injEq, Prod.mk.injEq] at hs
          obtain ⟨h1a, h2a⟩ := hs
          subst h1a
          subst h2a
          obtain ⟨hm0, hmin0, hct0, hctmin0⟩ := ih i0 d0 h2
          refine ⟨?_, ?_, ?_, ?_⟩
          · rw [tagMatchAt_cons_succ]
            exact hm0
          · intro j hj
            cases j with
            | zero =>
              intro hTM
              simp only [TagMatchAt] at hTM
              obtain ⟨hp0, dd, hdd⟩ := hTM
              exact findSub_eq_none ct _ hfr dd (by simpa using hdd)
            | succ j0 =>
              rw [tagMatchAt_cons_succ]
              exact hmin0 j0 (by omega)
          · have h3 : i0 + 1 + lt.length = (i0 + lt.length) + 1 := by omega
            rw [h3, List.drop_succ_cons]
            exact hct0
          · intro e he
            have h3 : i0 + 1 + lt.length = (i0 + lt.length) + 1 := by omega
            rw [h3, List.drop_succ_cons]
            exact hctmin0 e he
    · next hc =>
      cases h2 : searchTagged lt ct rest with
      | none => rw [h2] at hs; exact absurd hs (by simp)
      | some p =>
        obtain ⟨i0, d0⟩ := p
        rw [h2] at hs
        simp only [Option.map_some', Option.some.injEq, Prod.mk.injEq] at hs
        obtain ⟨h1a, h2a⟩ := hs
        subst h1a
        subst h2a
        obtain ⟨hm0, hmin0, hct0, hctmin0⟩ := ih i0 d0 h2
        refine ⟨?_, ?_, ?_, ?_⟩
        · rw [tagMatchAt_cons_succ]
          exact hm0
        · intro j hj
          cases j with
          | zero =>
            intro hTM
            simp only [TagMatchAt] at hTM
            obtain ⟨hp0, dd, hdd⟩ := hTM
            rw [List.drop_zero] at hp0
            exact hc hp0
          | succ j0 =>
            rw [tagMatchAt_cons_succ]
            exact hmin0 j0 (by omega)
        · have h3 : i0 + 1 + lt.length = (i0 + lt.length) + 1 := by omega
          rw [h3, List.drop_succ_cons]
          exact hct0
        · intro e he
          have h3 : i0 + 1 + lt.length = (i0 + lt.length) + 1 := by omega
          rw [h3, List.drop_succ_cons]
          exact hctmin0 e he

/-- C8: the extractor returns the stripped inner content of the first
case-insensitive `<tagName>…</tagName>` occurrence (non-greedy, with `.`
matching newlines), and returns the raw input unchanged when no such
occurrence exists. -/
theorem extract_answer_from_tags_characterization (text tag : String) :
    ((∀ i, i ≤ (lowerData text).length →
        ¬ TagMatchAt (openTagL tag) (closeTagL tag) (lowerData text) i) →
      extract_answer_from_tags text tag = text)
  ∧ (∀ i d,
      TagMatchAt (openTagL tag) (closeTagL tag) (lowerData text) i →
      (∀ j, j < i → ¬ TagMatchAt (openTagL tag) (closeTagL tag) (lowerData text) j) →
      (closeTagL tag).isPrefixOf
        (((lowerData text).drop (i + (openTagL tag).length)).drop d) = true →
      (∀ e, e < d →
        ¬ (closeTagL tag).isPrefixOf
            (((lowerData text).drop (i + (openTagL tag).length)).drop e) = true) →
      extract_answer_from_tags text tag =
        String.mk (pyStrip ((text.data.drop (i + (openTagL tag).length)).take d))) := by
  constructor
  · intro hb
    cases hsearch : searchTagged (openTagL tag) (closeTagL tag) (lowerData text) with
    | none => simp [extract_answer_from_tags, hsearch]
    | some p =>
      obtain ⟨i0, d0⟩ := p
      obtain ⟨hm, -, -, -⟩ := searchTagged_eq_some _ _ _ i0 d0 hsearch
      have hle : i0 ≤ (lowerData text).length := by
        by_contra hgt
        push_neg at hgt
        simp only [TagMatchAt] at hm
        have hdrop : (lowerData text).drop i0 = [] := List.drop_eq_nil_of_le (by omega)
        have hp := hm.1
        rw [hdrop] at hp
        exact openTagL_ne_nil tag (isPrefixOf_nil_eq _ hp)
      exact absurd hm (hb i0 hle)
  · intro i d hm hmin hct hctmin
    cases hsearch : searchTagged (openTagL tag) (closeTagL tag) (lowerData text) with
    | none => exact absurd hm (searchTagged_eq_none _ _ _ hsearch i)
    | some p =>
      obtain ⟨i0, d0⟩ := p
      obtain ⟨hm0, hmin0, hct0, hctmin0⟩ := searchTagged_eq_some _ _ _ i0 d0 hsearch
      have hi : i = i0 := by
        rcases Nat.lt_trichotomy i i0 with h | h | h
        · exact absurd hm (hmin0 i h)
        · exact h
        · exact absurd hm0 (hmin i0 h)
      subst hi
      have hd : d = d0 := by
        rcases Nat.lt_trichotomy d d0 with h | h | h
        · exact absurd hct (hctmin0 d h)
        · exact h
        · exact absurd hct0 (hctmin d0 h)
      subst hd
      simp [extract_answer_from_tags, hsearch]

/-- Witness for `extract_answer_from_tags_characterization`: the two concrete
test properties of the specification. -/
theorem extract_answer_from_tags_witness :
    extract_answer_from_tags "blah <answer> Consider NSAIDs. </answer> blah" "answer"
      = "Consider NSAIDs."
  ∧ extract_answer_from_tags "no tags here" "answer" = "no tags here" := by
  constructor
  · have h := (extract_answer_from_tags_characterization
      "blah <answer> Consider NSAIDs. </answer> blah" "answer").2 5 18
      (by decide) (by decide) (by decide) (by decide)
    rw [h]
    decide
  · exact (extract_answer_from_tags_characterization "no tags here" "answer").1 (by decide)

end IntakeBackend
